import Mathlib

/-!
# Attention & Classification Decision Engine — verification

Shallow embedding of the decision engine of the `eipspranalytics` repository:
the waiting-state analyzer (`analyzeTimeline`), the PR type classifier
(`classifyPRType`) and the categorizer (`categorizeResult`) from
`src/analysis.ts`, together with the chronological sort performed at the end
of `buildTimeline` in `src/events.ts`.

Strings are modelled by Lean `String`; all string operations the code performs
(JavaScript string comparison, `toLowerCase`, `trim`, regex tests used by the
classifier) are implemented executably over the underlying character lists so
that every definition evaluates by `decide`.
-/

namespace EipPrAnalytics

/-! ## String primitives (JavaScript semantics) -/

/-- Lexicographic strict comparison of character lists, mirroring JavaScript's
code-unit string comparison (`<`, `>`, `localeCompare` on ISO timestamps). -/
def listLt : List Char → List Char → Bool
  | _, [] => false
  | [], _ :: _ => true
  | a :: as, b :: bs => if a < b then true else if b < a then false else listLt as bs

/-- JavaScript `a < b` on strings. -/
def strLt (a b : String) : Bool := listLt a.data b.data

/-- JavaScript `a <= b` on strings (used as the sort comparator semantics). -/
def strLe (a b : String) : Bool := !(strLt b a)

/-- `pattern` is a prefix of `text`. -/
def startsWithL : List Char → List Char → Bool
  | [], _ => true
  | _ :: _, [] => false
  | p :: ps, c :: cs => p == c && startsWithL ps cs

/-- `pattern` is a suffix of `text`. -/
def endsWithL (pat text : List Char) : Bool := startsWithL pat.reverse text.reverse

/-- Some tail of the list satisfies `p` (used for unanchored regex search). -/
def tailsAny (p : List Char → Bool) : List Char → Bool
  | [] => p []
  | c :: cs => p (c :: cs) || tailsAny p cs

/-- `needle` occurs as a contiguous substring of `text`
(JavaScript `String.prototype.includes` / unanchored regex literal). -/
def containsL (needle text : List Char) : Bool := tailsAny (startsWithL needle) text

/-- Lower-cased character list of a string (JavaScript `toLowerCase`,
used to model the `/i` regex flag). -/
def lc (s : String) : List Char := s.data.map Char.toLower

/-- JavaScript `String.prototype.trim` on a character list. -/
def trimL (l : List Char) : List Char :=
  ((l.dropWhile Char.isWhitespace).reverse.dropWhile Char.isWhitespace).reverse

/-- JavaScript `\w` word character: ASCII letter, digit or underscore. -/
def isWordChar (c : Char) : Bool := c.isAlphanum || c == '_'

/-- One-or-more digits followed by the literal `.md`
(the `\d+\.md` part of the spec-document path regexes). -/
def digitsThenMd (l : List Char) : Bool :=
  !(l.takeWhile Char.isDigit).isEmpty && startsWithL ".md".data (l.dropWhile Char.isDigit)

/-- The tail matches one of `eips/eip-`, `ercs/erc-`, `rips/rip-` followed by
digits and `.md` (all three prefixes have length 9). -/
def specDocTail (t : List Char) : Bool :=
  (startsWithL "eips/eip-".data t || startsWithL "ercs/erc-".data t ||
    startsWithL "rips/rip-".data t) && digitsThenMd (t.drop 9)

/-- `filename.match(/EIPS\/eip-\d+\.md/i)` (or the ERC/RIP variant):
unanchored, case-insensitive search for a spec-document path. -/
def matchesSpecDoc (s : String) : Bool := tailsAny specDocTail (lc s)

/-- `/EIPS\/eip-1\.md$/i.test(filename)` and the ERC/RIP variants:
case-insensitive suffix match on the document #1 file. -/
def isEip1File (s : String) : Bool :=
  endsWithL "eips/eip-1.md".data (lc s) || endsWithL "ercs/erc-1.md".data (lc s) ||
    endsWithL "rips/rip-1.md".data (lc s)

/-- Occurrence of `kw` at a word boundary, scanning `l` while remembering the
previous character; models `/\b(kw)\b/i` for keywords made of word chars. -/
def wordOccurAux (kw : List Char) : Option Char → List Char → Bool
  | _, [] => false
  | prev, c :: cs =>
    ((match prev with | none => true | some p => !isWordChar p) &&
      (startsWithL kw (c :: cs) &&
        (match (c :: cs).drop kw.length with | [] => true | d :: _ => !isWordChar d)))
      || wordOccurAux kw (some c) cs

/-- `kw` occurs in `text` as a whole word (`\bkw\b`). -/
def hasWordL (kw text : List Char) : Bool := wordOccurAux kw none text

/-! ## Timeline data model (`src/events.ts`, `src/analysis.ts`) -/

/-- `ActorRole` from `src/events.ts`. -/
inductive ActorRole where
  | EDITOR
  | AUTHOR
deriving DecidableEq

/-- `EventSource` from `src/events.ts`. -/
inductive EventSource where
  | PR_OPENED
  | COMMIT
  | ISSUE_COMMENT
  | REVIEW_COMMENT
  | REVIEW_APPROVED
  | REVIEW_CHANGES_REQUESTED
  | REVIEW_COMMENTED
deriving DecidableEq

/-- `TimelineEvent` from `src/events.ts`. -/
structure TimelineEvent where
  actor : String
  role : ActorRole
  source : EventSource
  timestamp : String
deriving DecidableEq

/-- `ActionSummary` from `src/analysis.ts` (`actor` is an optional field). -/
structure ActionSummary where
  type : EventSource
  date : String
  actor : Option String
deriving DecidableEq

/-- `AnalysisResult` from `src/analysis.ts`. -/
structure AnalysisResult where
  needsEditorAttention : Bool
  waitingSince : Option String
  lastEditorAction : Option ActionSummary
  lastAuthorAction : Option ActionSummary
  reason : String
deriving DecidableEq

/-- The final chronological sort of `buildTimeline` (`src/events.ts`):
`events.sort((a, b) => a.timestamp.localeCompare(b.timestamp))`, a stable
sort by timestamp. -/
def sortTimeline (events : List TimelineEvent) : List TimelineEvent :=
  events.mergeSort (fun a b => strLe a.timestamp b.timestamp)

/-- Reason string of the "no editor yet" outcome. -/
def noEditorReason : String :=
  "No editor has interacted with this PR yet; it is waiting for initial editor attention."

/-- Reason string of the "author responded after editor" outcome. -/
def authorRespondedReason : String :=
  "An editor interacted with the PR and the author has since responded; it is now waiting on editor attention."

/-- Reason string of the "waiting on author" outcome. -/
def waitingOnAuthorReason : String :=
  "An editor has interacted with the PR and there has been no author response since; it is waiting on the author."

/-- `events.filter((e) => e.role === "EDITOR")`. -/
def editorEvents (events : List TimelineEvent) : List TimelineEvent :=
  events.filter (fun e => e.role == ActorRole.EDITOR)

/-- `events.filter((e) => e.role === "AUTHOR")`. -/
def authorEvents (events : List TimelineEvent) : List TimelineEvent :=
  events.filter (fun e => e.role == ActorRole.AUTHOR)

/-- `{ type: e.source, date: e.timestamp }` (no `actor` key). -/
def toAuthorAction (e : TimelineEvent) : ActionSummary :=
  { type := e.source, date := e.timestamp, actor := none }

/-- `{ type: e.source, date: e.timestamp, actor: e.actor }`. -/
def toEditorAction (e : TimelineEvent) : ActionSummary :=
  { type := e.source, date := e.timestamp, actor := some e.actor }

/-- `analyzeTimeline` from `src/analysis.ts`.  `editorEvents[length-1]`,
`slice(-1)[0] ?? null` become `getLast?`; the author-after-editor filter uses
the strict `>` string comparison of the code. -/
def analyzeTimeline (events : List TimelineEvent) : AnalysisResult :=
  match (editorEvents events).getLast? with
  | none =>
    { needsEditorAttention := true
      waitingSince := none
      lastEditorAction := none
      lastAuthorAction := ((authorEvents events).getLast?).map toAuthorAction
      reason := noEditorReason }
  | some lastEditorEvent =>
    match ((authorEvents events).filter
        (fun e => strLt lastEditorEvent.timestamp e.timestamp)).getLast? with
    | some lastAuthorAfterEditor =>
      { needsEditorAttention := true
        waitingSince := some lastAuthorAfterEditor.timestamp
        lastEditorAction := some (toEditorAction lastEditorEvent)
        lastAuthorAction := some (toAuthorAction lastAuthorAfterEditor)
        reason := authorRespondedReason }
    | none =>
      { needsEditorAttention := false
        waitingSince := none
        lastEditorAction := some (toEditorAction lastEditorEvent)
        lastAuthorAction := ((authorEvents events).getLast?).map toAuthorAction
        reason := waitingOnAuthorReason }

/-! ## PR type classifier (`classifyPRType` in `src/analysis.ts`) -/

/-- The `PRType` union from `src/analysis.ts` (eight labels). -/
inductive PRType where
  | DRAFT
  | TYPO
  | NEW_EIP
  | STATUS_CHANGE
  | WEBSITE
  | TOOLING
  | EIP_1
  | OTHER
deriving DecidableEq, Fintype

/-- `PRClassification` from `src/analysis.ts`; `openedByPreambleAuthor?` is an
optional boolean. -/
structure PRClassification where
  type : PRType
  isCreatedByBot : Bool
  openedByPreambleAuthor : Option Bool
deriving DecidableEq

/-- A file-change record as passed to `classifyPRType` (the enricher in
`src/index.ts` also sets `preambleStatusChangedOnly` on these objects). -/
structure FileChange where
  filename : String
  status : String
  additions : Option Nat
  deletions : Option Nat
  preambleStatusChangedOnly : Option Bool
deriving DecidableEq

/-- Rule 3 guard: `newEipFiles.length > 0` for files with `status === "added"`
matching a spec-document path. -/
def hasNewSpecFile (fileChanges : List FileChange) : Bool :=
  !(fileChanges.filter (fun f => f.status == "added" && matchesSpecDoc f.filename)).isEmpty

/-- Rule 4 guard: `modifiedEipFiles.length > 0` for files with
`status === "modified"`, a spec-document path, and
`(additions ?? 0) + (deletions ?? 0) < 20`. -/
def hasStatusChangeFile (fileChanges : List FileChange) : Bool :=
  !(fileChanges.filter (fun f =>
      f.status == "modified" && matchesSpecDoc f.filename &&
        decide (f.additions.getD 0 + f.deletions.getD 0 < 20))).isEmpty

/-- Rule 5 guard: a file under `website/`, or the lower-cased
`` `${prTitle} ${prBody ?? ""}` `` contains `"website"`. -/
def websiteSignal (fileChanges : List FileChange) (prTitle : String)
    (prBody : Option String) : Bool :=
  fileChanges.any (fun f => startsWithL "website/".data (lc f.filename)) ||
    containsL "website".data (lc (prTitle ++ " " ++ prBody.getD ""))

/-- `/^(CI|Bump|Config|Chore):/i.test(prTitle.trim())`. -/
def toolingPrefixTitle (prTitle : String) : Bool :=
  startsWithL "ci:".data ((trimL prTitle.data).map Char.toLower) ||
    startsWithL "bump:".data ((trimL prTitle.data).map Char.toLower) ||
    startsWithL "config:".data ((trimL prTitle.data).map Char.toLower) ||
    startsWithL "chore:".data ((trimL prTitle.data).map Char.toLower)

/-- `/\b(config|bump|ci|chore)\b/i.test(s)`. -/
def toolingKeywordIn (s : String) : Bool :=
  hasWordL "config".data (lc s) || hasWordL "bump".data (lc s) ||
    hasWordL "ci".data (lc s) || hasWordL "chore".data (lc s)

/-- `getFirstWordFromBody` from `src/analysis.ts`. -/
def getFirstWordFromBody : Option String → Option (List Char)
  | none => none
  | some body =>
    let trimmed := trimL body.data
    if trimmed.isEmpty then none
    else
      let first := trimmed.takeWhile (fun c => !c.isWhitespace)
      if first.isEmpty then none else some first

/-- `firstWord != null && TOOLING_FIRST_WORD.test(firstWord)`:
the first word of the body is exactly one of the four tooling keywords. -/
def firstWordIsTooling (prBody : Option String) : Bool :=
  match getFirstWordFromBody prBody with
  | none => false
  | some fw =>
    fw.map Char.toLower == "ci".data || fw.map Char.toLower == "bump".data ||
      fw.map Char.toLower == "config".data || fw.map Char.toLower == "chore".data

/-- Rule 6 guard: tooling title prefix, tooling keyword in title or body, or
tooling first word of the body. -/
def toolingSignal (prTitle : String) (prBody : Option String) : Bool :=
  toolingPrefixTitle prTitle || toolingKeywordIn prTitle ||
    (match prBody with | none => false | some b => toolingKeywordIn b) ||
    firstWordIsTooling prBody

/-- Rule 7 guard: a changed file whose name ends in a document #1 path, or
`/eip-1|eip\-1/i.test(`${prTitle} ${prBody ?? ""}`)` (both regex alternatives
are the same literal `eip-1`). -/
def eip1Signal (fileChanges : List FileChange) (prTitle : String)
    (prBody : Option String) : Bool :=
  fileChanges.any (fun f => isEip1File f.filename) ||
    containsL "eip-1".data (lc (prTitle ++ " " ++ prBody.getD ""))

/-- `classifyPRType` from `src/analysis.ts`: ordered first-match rules. -/
def classifyPRType (isDraft isTypoLike : Bool) (fileChanges : List FileChange)
    (prTitle : String) (prBody : Option String) : PRClassification :=
  if isDraft then
    { type := PRType.DRAFT, isCreatedByBot := false, openedByPreambleAuthor := none }
  else if isTypoLike then
    { type := PRType.TYPO, isCreatedByBot := false, openedByPreambleAuthor := none }
  else if hasNewSpecFile fileChanges then
    { type := PRType.NEW_EIP, isCreatedByBot := false, openedByPreambleAuthor := none }
  else if hasStatusChangeFile fileChanges then
    { type := PRType.STATUS_CHANGE, isCreatedByBot := false, openedByPreambleAuthor := none }
  else if websiteSignal fileChanges prTitle prBody then
    { type := PRType.WEBSITE, isCreatedByBot := false, openedByPreambleAuthor := none }
  else if toolingSignal prTitle prBody then
    { type := PRType.TOOLING, isCreatedByBot := false, openedByPreambleAuthor := none }
  else if eip1Signal fileChanges prTitle prBody then
    { type := PRType.EIP_1, isCreatedByBot := false, openedByPreambleAuthor := none }
  else
    { type := PRType.OTHER, isCreatedByBot := false, openedByPreambleAuthor := none }

/-! ## Categorizer (`categorizeResult` in `src/analysis.ts`) -/

/-- `CategorizedResult` from `src/analysis.ts`. -/
structure CategorizedResult extends AnalysisResult where
  category : String
  subcategory : String
deriving DecidableEq

/-- `STAGNANT_THRESHOLD_DAYS` from `src/analysis.ts`; `daysSinceLastActivity`
is a JavaScript number, modelled by `ℚ`. -/
def STAGNANT_THRESHOLD_DAYS : ℚ := 90

/-- Reason string of the non-author status/new-EIP override. -/
def nonAuthorOverrideReason : String :=
  "This status-change PR has no editor or EIP author interactions yet; it is waiting on the EIP authors."

/-- The special-case override at the start of `categorizeResult`: for
`STATUS_CHANGE`/`NEW_EIP` PRs not opened by a preamble author
(`!classification.openedByPreambleAuthor`, i.e. the flag is not `true`) with
no recorded editor or author action, rewrite the attention verdict. -/
def applyNonAuthorOverride (result : AnalysisResult)
    (classification : PRClassification) : AnalysisResult :=
  if (classification.type = PRType.STATUS_CHANGE ∨ classification.type = PRType.NEW_EIP) ∧
      ¬(classification.openedByPreambleAuthor = some true) ∧
      result.lastEditorAction = none ∧ result.lastAuthorAction = none then
    { result with
        needsEditorAttention := false
        waitingSince := none
        reason := nonAuthorOverrideReason }
  else result

/-- `isStagnant = !result.needsEditorAttention && daysSinceLastActivity !== null
&& daysSinceLastActivity >= STAGNANT_THRESHOLD_DAYS`. -/
def isStagnant (result : AnalysisResult) (daysSinceLastActivity : Option ℚ) : Bool :=
  !result.needsEditorAttention &&
    (match daysSinceLastActivity with
      | none => false
      | some d => decide (STAGNANT_THRESHOLD_DAYS ≤ d))

/-- The subcategory branch of `categorizeResult`. -/
def subcategoryFor (ty : PRType) (stagnant needsEditorAttention : Bool) : String :=
  if ty = PRType.DRAFT then
    if stagnant then "Stagnant" else "AWAITED"
  else if stagnant then "Stagnant"
  else if needsEditorAttention then "Waiting on Editor"
  else "Waiting on Author"

/-- The `switch` mapping `PRType` to the category label. -/
def categoryFor : PRType → String
  | PRType.DRAFT => "PR DRAFT"
  | PRType.TYPO => "Typo"
  | PRType.NEW_EIP => "New EIP"
  | PRType.STATUS_CHANGE => "Status Change"
  | PRType.WEBSITE => "Website"
  | PRType.TOOLING => "Tooling"
  | PRType.EIP_1 => "EIP-1"
  | PRType.OTHER => "Other"

/-- `categorizeResult` from `src/analysis.ts` (the `prTitle` parameter is
destructured by the code but not used). -/
def categorizeResult (result : AnalysisResult) (classification : PRClassification)
    (daysSinceLastActivity : Option ℚ) (_prTitle : String) : CategorizedResult :=
  let r := applyNonAuthorOverride result classification
  { toAnalysisResult := r
    category := categoryFor classification.type
    subcategory :=
      subcategoryFor classification.type (isStagnant r daysSinceLastActivity)
        r.needsEditorAttention }

/-! ## Order lemmas for the JavaScript string comparison -/

theorem listLt_irrefl : ∀ l : List Char, listLt l l = false
  | [] => rfl
  | a :: as => by
    simp only [listLt, lt_irrefl, if_false]
    exact listLt_irrefl as

theorem listLt_trans : ∀ {a b c : List Char},
    listLt a b = true → listLt b c = true → listLt a c = true
  | _, _, [], _, hbc => by simp [listLt] at hbc
  | [], _, _ :: _, _, _ => rfl
  | _ :: _, [], _, hab, _ => by simp [listLt] at hab
  | a :: as, b :: bs, c :: cs, hab, hbc => by
    simp only [listLt] at hab hbc ⊢
    rcases lt_trichotomy a b with h1 | h1 | h1
    · rcases lt_trichotomy b c with h2 | h2 | h2
      · simp [h1.trans h2]
      · subst h2; simp [h1]
      · rw [if_neg (asymm h2), if_pos h2] at hbc; exact absurd hbc (by simp)
    · subst h1
      rcases lt_trichotomy a c with h2 | h2 | h2
      · simp [h2]
      · subst h2
        rw [if_neg (lt_irrefl a), if_neg (lt_irrefl a)] at hab hbc ⊢
        exact listLt_trans hab hbc
      · rw [if_neg (asymm h2), if_pos h2] at hbc; exact absurd hbc (by simp)
    · rw [if_neg (asymm h1), if_pos h1] at hab; exact absurd hab (by simp)

theorem listLt_connex : ∀ {a b : List Char},
    listLt a b = false → listLt b a = false → a = b
  | [], [], _, _ => rfl
  | [], _ :: _, hab, _ => by simp [listLt] at hab
  | _ :: _, [], _, hba => by simp [listLt] at hba
  | a :: as, b :: bs, hab, hba => by
    simp only [listLt] at hab hba
    rcases lt_trichotomy a b with h1 | h1 | h1
    · rw [if_pos h1] at hab; exact absurd hab (by simp)
    · subst h1
      rw [if_neg (lt_irrefl a), if_neg (lt_irrefl a)] at hab hba
      rw [listLt_connex hab hba]
    · rw [if_pos h1] at hba; exact absurd hba (by simp)

theorem listLt_asymm {a b : List Char} (h : listLt a b = true) : listLt b a = false := by
  by_contra hc
  rw [Bool.not_eq_false] at hc
  have := listLt_trans h hc
  rw [listLt_irrefl] at this
  exact absurd this (by simp)

theorem strLe_refl (a : String) : strLe a a = true := by
  simp [strLe, strLt, listLt_irrefl]

theorem strLe_trans {a b c : String} (h1 : strLe a b = true) (h2 : strLe b c = true) :
    strLe a c = true := by
  simp only [strLe, strLt, Bool.not_eq_true'] at h1 h2 ⊢
  by_contra hc
  rw [Bool.not_eq_false] at hc
  by_cases hab : listLt a.data b.data = true
  · have := listLt_trans hc hab
    rw [this] at h2
    exact absurd h2 (by simp)
  · rw [Bool.not_eq_true] at hab
    have : a.data = b.data := listLt_connex hab h1
    rw [this] at hc
    rw [hc] at h2
    exact absurd h2 (by simp)

theorem strLe_total (a b : String) : (strLe a b || strLe b a) = true := by
  simp only [strLe, strLt, Bool.or_eq_true, Bool.not_eq_true']
  by_cases h : listLt b.data a.data = true
  · exact Or.inr (listLt_asymm h)
  · exact Or.inl (by simpa using h)

theorem strLt_of_not_gt_of_ne {a b : String} (h : strLt b a = false) (hne : a ≠ b) :
    strLt a b = true := by
  by_contra hc
  rw [Bool.not_eq_true] at hc
  exact hne (String.ext (listLt_connex hc h))

theorem strLt_asymm {a b : String} (h : strLt a b = true) : strLt b a = false :=
  listLt_asymm h

theorem getLast?_mem : ∀ {α : Type} {l : List α} {x : α}, l.getLast? = some x → x ∈ l
  | _, [], _, h => by simp at h
  | _, [a], x, h => by
    simp only [List.getLast?_singleton, Option.some.injEq] at h
    simp [h]
  | _, a :: b :: t, _, h => by
    rw [List.getLast?_cons_cons] at h
    exact List.mem_cons_of_mem a (getLast?_mem h)

/-! ## Timeline helper lemmas -/

/-- Chronological sortedness of a timeline: non-strict JavaScript string order
on timestamps, as established by `sortTimeline`. -/
def Chrono (l : List TimelineEvent) : Prop :=
  l.Pairwise (fun a b => strLe a.timestamp b.timestamp = true)

instance decChrono (l : List TimelineEvent) : Decidable (Chrono l) :=
  inferInstanceAs (Decidable (l.Pairwise
    (fun (a b : TimelineEvent) => strLe a.timestamp b.timestamp = true)))

theorem chrono_filter {l : List TimelineEvent} (p : TimelineEvent → Bool) (h : Chrono l) :
    Chrono (l.filter p) := List.Pairwise.filter p h

theorem chrono_last_max : ∀ {l : List TimelineEvent}, Chrono l →
    ∀ {x}, l.getLast? = some x → ∀ y ∈ l, strLe y.timestamp x.timestamp = true := by
  intro l
  induction l with
  | nil => intro _ x hx; simp at hx
  | cons a t ih =>
    intro h x hx y hy
    rcases List.pairwise_cons.mp h with ⟨ha, ht⟩
    cases t with
    | nil =>
      simp only [List.getLast?_singleton, Option.some.injEq] at hx
      subst hx
      rcases List.mem_singleton.mp hy with rfl
      exact strLe_refl _
    | cons b t2 =>
      rw [List.getLast?_cons_cons] at hx
      rcases List.mem_cons.mp hy with rfl | hy2
      · exact strLe_trans (ha _ (getLast?_mem hx)) (strLe_refl _)
      · exact ih ht hx y hy2

theorem sortTimeline_eq_of_perm_of_distinct {l₁ l₂ : List TimelineEvent}
    (hp : l₁.Perm l₂)
    (hd : l₁.Pairwise (fun a b => a.timestamp ≠ b.timestamp)) :
    sortTimeline l₁ = sortTimeline l₂ := by
  have htrans : ∀ a b c : TimelineEvent, strLe a.timestamp b.timestamp = true →
      strLe b.timestamp c.timestamp = true → strLe a.timestamp c.timestamp = true :=
    fun _ _ _ h1 h2 => strLe_trans h1 h2
  have htotal : ∀ a b : TimelineEvent,
      (strLe a.timestamp b.timestamp || strLe b.timestamp a.timestamp) = true :=
    fun a b => strLe_total _ _
  have hsym : ∀ {x y : TimelineEvent}, x.timestamp ≠ y.timestamp → y.timestamp ≠ x.timestamp :=
    fun h => h.symm
  have hperm₁ : (sortTimeline l₁).Perm l₁ := List.mergeSort_perm l₁ _
  have hperm₂ : (sortTimeline l₂).Perm l₂ := List.mergeSort_perm l₂ _
  have hd₂ : l₂.Pairwise (fun a b => a.timestamp ≠ b.timestamp) :=
    (List.Perm.pairwise_iff hsym hp).mp hd
  have hd₁' := (List.Perm.pairwise_iff hsym hperm₁).mpr hd
  have hd₂' := (List.Perm.pairwise_iff hsym hperm₂).mpr hd₂
  have hs₁ := List.sorted_mergeSort htrans htotal l₁
  have hs₂ := List.sorted_mergeSort htrans htotal l₂
  have hstrict₁ : (sortTimeline l₁).Pairwise
      (fun a b => strLt a.timestamp b.timestamp = true) :=
    (hs₁.and hd₁').imp (fun h => by
      rcases h with ⟨hle, hne⟩
      exact strLt_of_not_gt_of_ne (by simpa [strLe] using hle) hne)
  have hstrict₂ : (sortTimeline l₂).Pairwise
      (fun a b => strLt a.timestamp b.timestamp = true) :=
    (hs₂.and hd₂').imp (fun h => by
      rcases h with ⟨hle, hne⟩
      exact strLt_of_not_gt_of_ne (by simpa [strLe] using hle) hne)
  haveI : IsAntisymm TimelineEvent (fun a b => strLt a.timestamp b.timestamp = true) :=
    ⟨fun a b h1 h2 => absurd h2 (by rw [strLt_asymm h1]; simp)⟩
  exact List.eq_of_perm_of_sorted (hperm₁.trans (hp.trans hperm₂.symm)) hstrict₁ hstrict₂

theorem editorEvents_eq_nil {l : List TimelineEvent}
    (h : ∀ e ∈ l, e.role ≠ ActorRole.EDITOR) : editorEvents l = [] := by
  apply List.filter_eq_nil_iff.mpr
  intro e he
  simpa using h e he

theorem analyzeTimeline_of_no_editor {l : List TimelineEvent}
    (h : editorEvents l = []) :
    analyzeTimeline l =
      { needsEditorAttention := true
        waitingSince := none
        lastEditorAction := none
        lastAuthorAction := ((authorEvents l).getLast?).map toAuthorAction
        reason := noEditorReason } := by
  simp [analyzeTimeline, h]

theorem analyzeTimeline_of_author_after {l : List TimelineEvent} {E A : TimelineEvent}
    (hE : (editorEvents l).getLast? = some E)
    (hA : ((authorEvents l).filter
        (fun e => strLt E.timestamp e.timestamp)).getLast? = some A) :
    analyzeTimeline l =
      { needsEditorAttention := true
        waitingSince := some A.timestamp
        lastEditorAction := some (toEditorAction E)
        lastAuthorAction := some (toAuthorAction A)
        reason := authorRespondedReason } := by
  simp [analyzeTimeline, hE, hA]

theorem analyzeTimeline_of_no_author_after {l : List TimelineEvent} {E : TimelineEvent}
    (hE : (editorEvents l).getLast? = some E)
    (hA : ((authorEvents l).filter
        (fun e => strLt E.timestamp e.timestamp)).getLast? = none) :
    analyzeTimeline l =
      { needsEditorAttention := false
        waitingSince := none
        lastEditorAction := some (toEditorAction E)
        lastAuthorAction := ((authorEvents l).getLast?).map toAuthorAction
        reason := waitingOnAuthorReason } := by
  simp [analyzeTimeline, hE, hA]

/-! ## Categorizer helper lemmas -/

theorem subcategoryFor_eq_stagnant_iff :
    ∀ (ty : PRType) (s n : Bool), (subcategoryFor ty s n = "Stagnant") ↔ s = true := by
  decide

theorem categorizeResult_subcategory (r : AnalysisResult) (c : PRClassification)
    (d : Option ℚ) (t : String) :
    (categorizeResult r c d t).subcategory =
      subcategoryFor c.type (isStagnant (applyNonAuthorOverride r c) d)
        (applyNonAuthorOverride r c).needsEditorAttention := rfl

theorem categorizeResult_needs_attention (r : AnalysisResult) (c : PRClassification)
    (d : Option ℚ) (t : String) :
    (categorizeResult r c d t).needsEditorAttention =
      (applyNonAuthorOverride r c).needsEditorAttention := rfl

theorem isStagnant_none (r : AnalysisResult) : isStagnant r none = false := by
  simp [isStagnant]

/-! ## Concrete events and inputs used by witnesses and counterexamples -/

/-- An author PR-open event (witness input). -/
def wOpen : TimelineEvent :=
  ⟨"alice", ActorRole.AUTHOR, EventSource.PR_OPENED, "2024-01-01T00:00:00Z"⟩

/-- An editor review event after `wOpen` (witness input). -/
def wReview : TimelineEvent :=
  ⟨"edith", ActorRole.EDITOR, EventSource.REVIEW_CHANGES_REQUESTED, "2024-01-02T00:00:00Z"⟩

/-- An author commit event after `wReview` (witness input). -/
def wCommit : TimelineEvent :=
  ⟨"alice", ActorRole.AUTHOR, EventSource.COMMIT, "2024-01-03T00:00:00Z"⟩

/-- An author commit, timestamp-tied with `tieComment` (counterexample input). -/
def tieCommit : TimelineEvent :=
  ⟨"alice", ActorRole.AUTHOR, EventSource.COMMIT, "2024-01-01T00:00:00Z"⟩

/-- An author issue comment, timestamp-tied with `tieCommit` (counterexample input). -/
def tieComment : TimelineEvent :=
  ⟨"bob", ActorRole.AUTHOR, EventSource.ISSUE_COMMENT, "2024-01-01T00:00:00Z"⟩

/-- An analysis result with attention requested and no recorded actions
(witness input). -/
def wBase : AnalysisResult :=
  ⟨true, some "2024-01-05T00:00:00Z", none, none, "base"⟩

/-- A status-change classification with no `openedByPreambleAuthor` flag
(witness input). -/
def wClassSC : PRClassification := ⟨PRType.STATUS_CHANGE, false, none⟩

/-- A waiting-on-author analysis result (witness input). -/
def wWaiting : AnalysisResult := ⟨false, none, none, none, "waiting"⟩

/-- An `OTHER` classification (witness input). -/
def wClassOther : PRClassification := ⟨PRType.OTHER, false, none⟩

/-- A modified document #1 file whose diff is 40 lines (witness input). -/
def wEip1File : FileChange := ⟨"EIPS/eip-1.md", "modified", some 30, some 10, none⟩

/-! ## Claim theorems -/

/-- Claim C1 (code_bug evaluation): `classifyPRType` decides `STATUS_CHANGE` by
`(additions ?? 0) + (deletions ?? 0) < 20` and ignores the
`preambleStatusChangedOnly` flag entirely: a modified spec-document file
explicitly flagged `false` with a 1-line diff is still classified
`STATUS_CHANGE`, and one flagged `true` with a 25-line diff is classified
`OTHER`. -/
theorem classify_statusChange_ignores_preamble_flag :
    (classifyPRType false false
      [⟨"EIPS/eip-2.md", "modified", some 1, some 0, some false⟩] "" none).type
      = PRType.STATUS_CHANGE ∧
    (classifyPRType false false
      [⟨"EIPS/eip-2.md", "modified", some 25, some 0, some true⟩] "" none).type
      = PRType.OTHER := by decide

/-- Claim C2 (counterexample): with no changed files at all, rules 1 through 6
do not fire, yet a title that merely mentions "eip-1" makes `classifyPRType`
return `EIP_1` — contradicting the claim that the result would be `OTHER`. -/
theorem classify_eip1_fires_on_text_mention :
    hasNewSpecFile [] = false ∧ hasStatusChangeFile [] = false ∧
    websiteSignal [] "about eip-1" none = false ∧
    toolingSignal "about eip-1" none = false ∧
    (classifyPRType false false [] "about eip-1" none).type = PRType.EIP_1 := by decide

/-- Claim C2 (amended): when rules 1 through 6 do not fire, the result is
`EIP_1` iff some changed file ends in a document #1 path **or** the combined
title/body text contains "eip-1" case-insensitively (`eip1Signal`); otherwise
the result is `OTHER`. -/
theorem classify_eip1_iff_file_or_text (fcs : List FileChange) (title : String)
    (body : Option String)
    (h1 : hasNewSpecFile fcs = false) (h2 : hasStatusChangeFile fcs = false)
    (h3 : websiteSignal fcs title body = false) (h4 : toolingSignal title body = false) :
    ((classifyPRType false false fcs title body).type = PRType.EIP_1 ↔
      eip1Signal fcs title body = true) ∧
    ((classifyPRType false false fcs title body).type ≠ PRType.EIP_1 →
      (classifyPRType false false fcs title body).type = PRType.OTHER) := by
  cases h : eip1Signal fcs title body with
  | true => simp [classifyPRType, h1, h2, h3, h4, h]
  | false => simp [classifyPRType, h1, h2, h3, h4, h]

/-- Witness for the amended claim C2: a PR touching `EIPS/eip-1.md` with a
40-line diff, title "improve docs", is classified `EIP_1`. -/
theorem classify_eip1_iff_file_or_text_witness :
    hasNewSpecFile [wEip1File] = false ∧ hasStatusChangeFile [wEip1File] = false ∧
    websiteSignal [wEip1File] "improve docs" none = false ∧
    toolingSignal "improve docs" none = false ∧
    (((classifyPRType false false [wEip1File] "improve docs" none).type = PRType.EIP_1 ↔
        eip1Signal [wEip1File] "improve docs" none = true) ∧
      ((classifyPRType false false [wEip1File] "improve docs" none).type ≠ PRType.EIP_1 →
        (classifyPRType false false [wEip1File] "improve docs" none).type = PRType.OTHER)) :=
  ⟨by decide, by decide, by decide, by decide,
    classify_eip1_iff_file_or_text [wEip1File] "improve docs" none
      (by decide) (by decide) (by decide) (by decide)⟩

/-- Claim C3 (counterexample): two author events with tied timestamps but
different sources; swapping them is a permutation of the input, yet the
decision differs (the stable sort keeps the appended order of ties, and
`lastAuthorAction` reports the source of the last one). -/
theorem timeline_decision_sensitive_to_tied_order :
    ([tieCommit, tieComment].Perm [tieComment, tieCommit]) ∧
    analyzeTimeline (sortTimeline [tieCommit, tieComment]) ≠
      analyzeTimeline (sortTimeline [tieComment, tieCommit]) := by
  refine ⟨by decide, ?_⟩
  rw [show sortTimeline [tieCommit, tieComment] = [tieCommit, tieComment] from
      List.mergeSort_of_sorted (by decide),
    show sortTimeline [tieComment, tieCommit] = [tieComment, tieCommit] from
      List.mergeSort_of_sorted (by decide)]
  decide

/-- Claim C3 (amended): the decision pipeline (internal chronological sort,
then `analyzeTimeline`) is invariant under permutation of the input activity
records, provided no two records share a timestamp. -/
theorem timeline_decision_order_invariant (l₁ l₂ : List TimelineEvent)
    (hp : l₁.Perm l₂)
    (hd : l₁.Pairwise (fun a b => a.timestamp ≠ b.timestamp)) :
    analyzeTimeline (sortTimeline l₁) = analyzeTimeline (sortTimeline l₂) :=
  congrArg analyzeTimeline (sortTimeline_eq_of_perm_of_distinct hp hd)

/-- Witness for the amended claim C3 at a concrete two-event permutation with
distinct timestamps. -/
theorem timeline_decision_order_invariant_witness :
    ([wOpen, wReview].Perm [wReview, wOpen]) ∧
    ([wOpen, wReview].Pairwise (fun a b => a.timestamp ≠ b.timestamp)) ∧
    analyzeTimeline (sortTimeline [wOpen, wReview]) =
      analyzeTimeline (sortTimeline [wReview, wOpen]) :=
  ⟨by decide, by decide,
    timeline_decision_order_invariant [wOpen, wReview] [wReview, wOpen]
      (by decide) (by decide)⟩

/-- Claim C4: on a chronologically sorted timeline whose last editor event is
`E`: every editor event's timestamp is ≤ `E`'s; if some author event is
strictly after `E`, `analyzeTimeline` returns `needsEditorAttention = true`
with `waitingSince` the timestamp of the latest such author event `A`,
`lastEditorAction` from `E` and `lastAuthorAction` from `A`; if no author
event is strictly after `E` (timestamp ties do not count as after), it
returns `needsEditorAttention = false` and `waitingSince = none`. -/
theorem analyzeTimeline_last_editor_verdict (l : List TimelineEvent)
    (E : TimelineEvent) (hs : Chrono l)
    (hE : (editorEvents l).getLast? = some E) :
    (∀ e ∈ editorEvents l, strLe e.timestamp E.timestamp = true) ∧
    ((∃ a ∈ authorEvents l, strLt E.timestamp a.timestamp = true) →
      ∃ A ∈ authorEvents l, strLt E.timestamp A.timestamp = true ∧
        (∀ a ∈ authorEvents l, strLt E.timestamp a.timestamp = true →
          strLe a.timestamp A.timestamp = true) ∧
        analyzeTimeline l =
          { needsEditorAttention := true
            waitingSince := some A.timestamp
            lastEditorAction := some (toEditorAction E)
            lastAuthorAction := some (toAuthorAction A)
            reason := authorRespondedReason }) ∧
    ((∀ a ∈ authorEvents l, strLt E.timestamp a.timestamp = false) →
      (analyzeTimeline l).needsEditorAttention = false ∧
        (analyzeTimeline l).waitingSince = none) := by
  refine ⟨chrono_last_max (chrono_filter _ hs) hE, ?_, ?_⟩
  · rintro ⟨a, ha, hlt⟩
    have hmem : a ∈ (authorEvents l).filter (fun e => strLt E.timestamp e.timestamp) :=
      List.mem_filter.mpr ⟨ha, hlt⟩
    have hne : (authorEvents l).filter (fun e => strLt E.timestamp e.timestamp) ≠ [] :=
      List.ne_nil_of_mem hmem
    obtain ⟨A, hA⟩ : ∃ A, ((authorEvents l).filter
        (fun e => strLt E.timestamp e.timestamp)).getLast? = some A := by
      cases hlast : ((authorEvents l).filter
          (fun e => strLt E.timestamp e.timestamp)).getLast? with
      | none => exact absurd (List.getLast?_eq_none_iff.mp hlast) hne
      | some A => exact ⟨A, rfl⟩
    have hAf := List.mem_filter.mp (getLast?_mem hA)
    refine ⟨A, hAf.1, hAf.2, ?_, analyzeTimeline_of_author_after hE hA⟩
    intro b hb hbl
    exact chrono_last_max (chrono_filter _ (chrono_filter _ hs)) hA b
      (List.mem_filter.mpr ⟨hb, hbl⟩)
  · intro h
    have hA : ((authorEvents l).filter
        (fun e => strLt E.timestamp e.timestamp)).getLast? = none := by
      rw [List.getLast?_eq_none_iff]
      apply List.filter_eq_nil_iff.mpr
      intro e he
      rw [h e he]
      simp
    rw [analyzeTimeline_of_no_author_after hE hA]
    exact ⟨rfl, rfl⟩

/-- Witness for claim C4 at the timeline author-open, editor-review,
author-commit (spec scenario 2). -/
theorem analyzeTimeline_last_editor_verdict_witness :
    Chrono [wOpen, wReview, wCommit] ∧
    (editorEvents [wOpen, wReview, wCommit]).getLast? = some wReview ∧
    ((∀ e ∈ editorEvents [wOpen, wReview, wCommit],
        strLe e.timestamp wReview.timestamp = true) ∧
      ((∃ a ∈ authorEvents [wOpen, wReview, wCommit],
          strLt wReview.timestamp a.timestamp = true) →
        ∃ A ∈ authorEvents [wOpen, wReview, wCommit],
          strLt wReview.timestamp A.timestamp = true ∧
          (∀ a ∈ authorEvents [wOpen, wReview, wCommit],
            strLt wReview.timestamp a.timestamp = true →
              strLe a.timestamp A.timestamp = true) ∧
          analyzeTimeline [wOpen, wReview, wCommit] =
            { needsEditorAttention := true
              waitingSince := some A.timestamp
              lastEditorAction := some (toEditorAction wReview)
              lastAuthorAction := some (toAuthorAction A)
              reason := authorRespondedReason }) ∧
      ((∀ a ∈ authorEvents [wOpen, wReview, wCommit],
          strLt wReview.timestamp a.timestamp = false) →
        (analyzeTimeline [wOpen, wReview, wCommit]).needsEditorAttention = false ∧
          (analyzeTimeline [wOpen, wReview, wCommit]).waitingSince = none)) :=
  ⟨by decide, by decide,
    analyzeTimeline_last_editor_verdict [wOpen, wReview, wCommit] wReview
      (by decide) (by decide)⟩

/-- Claim C5: a timeline with no `EDITOR` event yields
`needsEditorAttention = true`, `waitingSince = none` and
`lastEditorAction = none`; in particular the empty timeline yields the
verdict with both actions `none`. -/
theorem analyzeTimeline_no_editor_verdict (l : List TimelineEvent)
    (h : ∀ e ∈ l, e.role ≠ ActorRole.EDITOR) :
    (analyzeTimeline l).needsEditorAttention = true ∧
    (analyzeTimeline l).waitingSince = none ∧
    (analyzeTimeline l).lastEditorAction = none ∧
    analyzeTimeline [] =
      { needsEditorAttention := true, waitingSince := none, lastEditorAction := none,
        lastAuthorAction := none, reason := noEditorReason } := by
  rw [analyzeTimeline_of_no_editor (editorEvents_eq_nil h)]
  exact ⟨rfl, rfl, rfl, by decide⟩

/-- Witness for claim C5 at the one-author-event timeline. -/
theorem analyzeTimeline_no_editor_verdict_witness :
    (∀ e ∈ [wOpen], e.role ≠ ActorRole.EDITOR) ∧
    ((analyzeTimeline [wOpen]).needsEditorAttention = true ∧
      (analyzeTimeline [wOpen]).waitingSince = none ∧
      (analyzeTimeline [wOpen]).lastEditorAction = none ∧
      analyzeTimeline [] =
        { needsEditorAttention := true, waitingSince := none, lastEditorAction := none,
          lastAuthorAction := none, reason := noEditorReason }) :=
  ⟨by decide, analyzeTimeline_no_editor_verdict [wOpen] (by decide)⟩

/-- Claim C6: `categorizeResult` forces `needsEditorAttention = false`,
`waitingSince = none` and the waiting-on-the-authors reason exactly when the
classification type is `STATUS_CHANGE` or `NEW_EIP`, the PR opener is not a
recognized preamble author (the optional flag is not `true`), and both
recorded actions are `none`; otherwise `needsEditorAttention` and
`waitingSince` are passed through unchanged. -/
theorem categorizeResult_non_author_override (r : AnalysisResult)
    (c : PRClassification) (d : Option ℚ) (t : String) :
    (((c.type = PRType.STATUS_CHANGE ∨ c.type = PRType.NEW_EIP) ∧
        ¬(c.openedByPreambleAuthor = some true) ∧
        r.lastEditorAction = none ∧ r.lastAuthorAction = none) →
      (categorizeResult r c d t).needsEditorAttention = false ∧
        (categorizeResult r c d t).waitingSince = none ∧
        (categorizeResult r c d t).reason = nonAuthorOverrideReason) ∧
    (¬((c.type = PRType.STATUS_CHANGE ∨ c.type = PRType.NEW_EIP) ∧
        ¬(c.openedByPreambleAuthor = some true) ∧
        r.lastEditorAction = none ∧ r.lastAuthorAction = none) →
      (categorizeResult r c d t).needsEditorAttention = r.needsEditorAttention ∧
        (categorizeResult r c d t).waitingSince = r.waitingSince) := by
  constructor
  · intro h
    simp [categorizeResult, applyNonAuthorOverride, if_pos h]
  · intro h
    simp [categorizeResult, applyNonAuthorOverride, if_neg h]

/-- Witness for claim C6: a status-change classification with no flag and an
interaction-free analysis result gets the override. -/
theorem categorizeResult_non_author_override_witness :
    ((wClassSC.type = PRType.STATUS_CHANGE ∨ wClassSC.type = PRType.NEW_EIP) ∧
      ¬(wClassSC.openedByPreambleAuthor = some true) ∧
      wBase.lastEditorAction = none ∧ wBase.lastAuthorAction = none) ∧
    ((categorizeResult wBase wClassSC (some 5) "t").needsEditorAttention = false ∧
      (categorizeResult wBase wClassSC (some 5) "t").waitingSince = none ∧
      (categorizeResult wBase wClassSC (some 5) "t").reason = nonAuthorOverrideReason) :=
  ⟨by decide, (categorizeResult_non_author_override wBase wClassSC (some 5) "t").1
    (by decide)⟩

/-- Claim C7: being marked `"Stagnant"` is monotone in
`daysSinceLastActivity`, impossible whenever the post-override verdict still
needs editor attention, and never triggered by a `null` or negative
`daysSinceLastActivity`. -/
theorem categorizeResult_stagnant_monotone (r : AnalysisResult)
    (c : PRClassification) (t : String) :
    (∀ x x' : ℚ, x < x' →
      (categorizeResult r c (some x) t).subcategory = "Stagnant" →
      (categorizeResult r c (some x') t).subcategory = "Stagnant") ∧
    (∀ d : Option ℚ, (categorizeResult r c d t).needsEditorAttention = true →
      (categorizeResult r c d t).subcategory ≠ "Stagnant") ∧
    ((categorizeResult r c none t).subcategory ≠ "Stagnant") ∧
    (∀ x : ℚ, x < 0 → (categorizeResult r c (some x) t).subcategory ≠ "Stagnant") := by
  refine ⟨?_, ?_, ?_, ?_⟩
  · intro x x' hxx h
    rw [categorizeResult_subcategory, subcategoryFor_eq_stagnant_iff] at h ⊢
    simp only [isStagnant, Bool.and_eq_true, Bool.not_eq_true',
      decide_eq_true_eq] at h ⊢
    exact ⟨h.1, le_trans h.2 (le_of_lt hxx)⟩
  · intro d h hs
    rw [categorizeResult_subcategory, subcategoryFor_eq_stagnant_iff] at hs
    rw [categorizeResult_needs_attention] at h
    simp [isStagnant, h] at hs
  · rw [categorizeResult_subcategory]
    simp only [ne_eq, subcategoryFor_eq_stagnant_iff, isStagnant_none]
    simp
  · intro x hx
    rw [categorizeResult_subcategory]
    simp only [ne_eq, subcategoryFor_eq_stagnant_iff]
    simp only [isStagnant, Bool.and_eq_true, Bool.not_eq_true', decide_eq_true_eq,
      STAGNANT_THRESHOLD_DAYS]
    rintro ⟨-, h90⟩
    linarith

/-- Witness for claim C7: a waiting-on-author result stagnant at 100 days stays
stagnant at 200 days. -/
theorem categorizeResult_stagnant_monotone_witness :
    ((100 : ℚ) < 200) ∧
    ((categorizeResult wWaiting wClassOther (some 100) "t").subcategory = "Stagnant") ∧
    ((categorizeResult wWaiting wClassOther (some 200) "t").subcategory = "Stagnant") :=
  ⟨by decide, by decide,
    (categorizeResult_stagnant_monotone wWaiting wClassOther "t").1 100 200
      (by decide) (by decide)⟩

/-- Claim C8 (counterexample): the `PRType` enumeration the classifier returns
has eight labels, not nine. -/
theorem prType_card_eight : Fintype.card PRType = 8 ∧ Fintype.card PRType ≠ 9 := by
  decide

/-- Claim C8 (amended): `classifyPRType` is total and always returns exactly
one of the eight enumerated labels (the ordered first-match rules are
collectively exhaustive; the labels are distinct constructors). -/
theorem classifyPRType_total_single_label (isDraft isTypoLike : Bool)
    (fcs : List FileChange) (title : String) (body : Option String) :
    (classifyPRType isDraft isTypoLike fcs title body).type = PRType.DRAFT ∨
    (classifyPRType isDraft isTypoLike fcs title body).type = PRType.TYPO ∨
    (classifyPRType isDraft isTypoLike fcs title body).type = PRType.NEW_EIP ∨
    (classifyPRType isDraft isTypoLike fcs title body).type = PRType.STATUS_CHANGE ∨
    (classifyPRType isDraft isTypoLike fcs title body).type = PRType.WEBSITE ∨
    (classifyPRType isDraft isTypoLike fcs title body).type = PRType.TOOLING ∨
    (classifyPRType isDraft isTypoLike fcs title body).type = PRType.EIP_1 ∨
    (classifyPRType isDraft isTypoLike fcs title body).type = PRType.OTHER := by
  unfold classifyPRType
  repeat' split
  all_goals simp

/-- Claim C9: `categorizeResult` returns the incoming analysis result's
`lastEditorAction` and `lastAuthorAction` unchanged, for every input. -/
theorem categorizeResult_preserves_actions (r : AnalysisResult)
    (c : PRClassification) (d : Option ℚ) (t : String) :
    (categorizeResult r c d t).lastEditorAction = r.lastEditorAction ∧
    (categorizeResult r c d t).lastAuthorAction = r.lastAuthorAction := by
  simp only [categorizeResult, applyNonAuthorOverride]
  split <;> simp

/-- Claim C10: on a sorted timeline with no `EDITOR` event but a last
`AUTHOR` event `A`, `analyzeTimeline` reports `lastAuthorAction` populated
from `A` (source and timestamp), with `needsEditorAttention = true` and
`waitingSince = none`; `A` is the latest author event. -/
theorem analyzeTimeline_no_editor_author_report (l : List TimelineEvent)
    (A : TimelineEvent) (hs : Chrono l)
    (h : ∀ e ∈ l, e.role ≠ ActorRole.EDITOR)
    (hA : (authorEvents l).getLast? = some A) :
    analyzeTimeline l =
      { needsEditorAttention := true, waitingSince := none, lastEditorAction := none,
        lastAuthorAction := some (toAuthorAction A), reason := noEditorReason } ∧
    ∀ a ∈ authorEvents l, strLe a.timestamp A.timestamp = true := by
  constructor
  · rw [analyzeTimeline_of_no_editor (editorEvents_eq_nil h), hA]
    rfl
  · exact chrono_last_max (chrono_filter _ hs) hA

/-- Witness for claim C10 at a two-author-event timeline. -/
theorem analyzeTimeline_no_editor_author_report_witness :
    Chrono [wOpen, wCommit] ∧
    (∀ e ∈ [wOpen, wCommit], e.role ≠ ActorRole.EDITOR) ∧
    (authorEvents [wOpen, wCommit]).getLast? = some wCommit ∧
    (analyzeTimeline [wOpen, wCommit] =
      { needsEditorAttention := true, waitingSince := none, lastEditorAction := none,
        lastAuthorAction := some (toAuthorAction wCommit), reason := noEditorReason } ∧
      ∀ a ∈ authorEvents [wOpen, wCommit], strLe a.timestamp wCommit.timestamp = true) :=
  ⟨by decide, by decide, by decide,
    analyzeTimeline_no_editor_author_report [wOpen, wCommit] wCommit
      (by decide) (by decide) (by decide)⟩

end EipPrAnalytics
